import Mathlib

/-!
Shallow embedding of the AutoShutdown frontend core (src/App.tsx).

The React component is modelled as an explicit state machine:

* `AppState` mirrors the component's `useState` fields that the timer engine,
  the selection, and the refresh logic read or write.
* `Machine` adds the environment pieces the component manipulates through the
  browser: the table of live `setInterval` timers (with the stale closure each
  callback captured at arm time), the next interval id, and the ordered log of
  `invoke(...)` calls into the Tauri backend.
* One wall-clock second (`stepSecond`) runs every live interval callback once,
  in creation order, skipping callbacks whose interval was cleared earlier in
  the same second (matching the HTML timer semantics that a cleared timer's
  queued task does not run).
* JS numbers entered in the hour/minute fields are modelled as rationals; an
  unparsable field is `none` and `parseFloat(x) || 0` becomes `Option.getD 0`.
* The async bodies (`executeAppShutdown`) are modelled as running atomically at
  fire time; an `invoke` whose backend command fails rejects the promise, so
  the rest of the async body after a failed `await` does not run.

The Rust side of the Tauri commands is not part of the repository snapshot, so
the outcome of `kill_process` is an environment parameter `env : Nat →
KillOutcome` (see `KillOutcome`, modelled from the spec).
-/

namespace AutoShutdown

/-! ### JS string helpers (on `List Char`) -/

/-- Does the second list start with the first one? -/
def leadsWith : List Char → List Char → Bool
  | [], _ => true
  | _ :: _, [] => false
  | p :: ps, c :: cs => p == c && leadsWith ps cs

/-- JS `String.prototype.includes`: does `pat` occur somewhere in the list? -/
def hasSub (pat : List Char) : List Char → Bool
  | [] => leadsWith pat []
  | c :: cs => leadsWith pat (c :: cs) || hasSub pat cs

/-- Split at the first occurrence of `pat`: the part strictly before it and
the part strictly after it. `none` when `pat` does not occur. -/
def splitAtSub (pat : List Char) : List Char → Option (List Char × List Char)
  | [] => if leadsWith pat [] then some ([], []) else none
  | c :: cs =>
    if leadsWith pat (c :: cs) then some ([], (c :: cs).drop pat.length)
    else (splitAtSub pat cs).map (fun pr => (c :: pr.1, pr.2))

/-- JS `s.includes(pat)`. -/
def jsIncludes (s pat : String) : Bool := hasSub pat.data s.data

/-- JS `s.replace(pat, '')` with a plain-string pattern: removes only the
first occurrence of `pat`, anywhere in `s` (not just a trailing one). -/
def removeFirstSub (s pat : String) : String :=
  match splitAtSub pat.data s.data with
  | some pr => String.mk (pr.1 ++ pr.2)
  | none => s

/-- JS `s.split(pat)[0]`: the part before the first occurrence of `pat`
(`s` itself when `pat` does not occur). -/
def jsBeforeFirst (s pat : String) : String :=
  match splitAtSub pat.data s.data with
  | some pr => String.mk pr.1
  | none => s

/-- JS `s.trim()` (ASCII whitespace). -/
def jsTrim (s : String) : String :=
  String.mk ((s.data.dropWhile Char.isWhitespace).reverse.dropWhile Char.isWhitespace).reverse

/-- JS `s.toLowerCase()` (ASCII case mapping). -/
def jsToLower (s : String) : String := String.mk (s.data.map Char.toLower)

/-! ### Data model -/

/-- One running application as received from the backend
(interface `ProcessInfo` in App.tsx). -/
structure ProcessInfo where
  pid : Nat
  name : String
  title : String
  icon : Option String
deriving DecidableEq, Repr

/-- UI language; the status strings assigned by the timer code are the
translated `t('closed')` / `t('cancelled')` strings. -/
inductive Language
  | zh
  | en
deriving DecidableEq, Repr

/-- `t('closed')`. -/
def tClosed : Language → String
  | .zh => "✓ 已关闭"
  | .en => "✓ Closed"

/-- `t('cancelled')`. -/
def tCancelled : Language → String
  | .zh => "已取消"
  | .en => "Cancelled"

/-- Backend invocations (`invoke(...)`) the component performs, logged in
program order. -/
inductive Call
  | killProcess (pid : Nat)
  | systemShutdown
  | systemRestart
  | systemSleep
  | getRunningApps
deriving DecidableEq, Repr

/-- Modelled from the spec: the Rust `kill_process` Tauri command is not in
the repository snapshot (only the frontend is). Spec sections 4.3/6 give
`terminate_process(pid) -> Outcome{Success, AlreadyGone, Failure(cause)}` with
AlreadyGone "treated as a successful termination for chaining purposes", so at
the `invoke` boundary the promise resolves for `success` and `alreadyGone` and
rejects for `failed`. -/
inductive KillOutcome
  | success
  | alreadyGone
  | failed
deriving DecidableEq, Repr

/-- What a `setInterval` tick callback captured at arm time. In App.tsx the
callback closes over the `executeAppShutdown` / `executeSysAction` function
instance of the render in which the Start button was clicked, which in turn
closes over that render's `selectedApp`, `shutdownAfter` and `sysAction`
values (the classic stale-closure snapshot). -/
inductive TickClosure
  | app (sel : Option ProcessInfo) (shutdownAfter : Bool)
  | sys (action : String)
deriving DecidableEq, Repr

/-- The component state fields relevant to the core (App.tsx `useState`s,
minus pure presentation state such as `loading` and `isDark`). -/
structure AppState where
  apps : List ProcessInfo
  selectedApp : Option ProcessInfo
  sysAction : String
  shutdownAfter : Bool
  appTimer : Nat
  sysTimer : Nat
  appStatus : String
  sysStatus : String
  appIntervalRef : Option Nat
  sysIntervalRef : Option Nat
  lang : Language
deriving DecidableEq, Repr

/-- Component state plus the browser-side timer table and the backend call
log. `intervals` lists the live `setInterval` timers in creation order with
the closure each callback captured; `nextId` is the next interval id handed
out (browser ids start at 1, so a stored id is always truthy in JS). -/
structure Machine where
  st : AppState
  intervals : List (Nat × TickClosure)
  nextId : Nat
  calls : List Call
deriving DecidableEq, Repr

/-- Initial component state (the `useState` initial values; `lang` starts as
`'zh'` before the language-detection effect runs). -/
def initState : AppState :=
  { apps := [], selectedApp := none, sysAction := "shutdown", shutdownAfter := false,
    appTimer := 0, sysTimer := 0, appStatus := "", sysStatus := "",
    appIntervalRef := none, sysIntervalRef := none, lang := .zh }

/-- Initial machine: no live intervals, no backend calls yet. -/
def init : Machine := { st := initState, intervals := [], nextId := 1, calls := [] }

/-! ### Input parsing and duration computation

JS numbers entered in the duration fields are finite decimals, hence exact
rationals. They are embedded as explicit fractions with a positive
denominator (`JsNum`), whose arithmetic is plain `Int`/`Nat` arithmetic (no
normalisation), so every machine run is kernel-computable; `JsNum.val` maps a
fraction to the rational it denotes and the lemmas `JsNum.le0_iff_val` and
`JsNum.floor_eq_floor_val` below tie the executable operations to the
rational semantics. -/

/-- An exact JS number `num / den` (`den` positive). -/
structure JsNum where
  num : Int
  den : ℕ+
deriving DecidableEq, Repr

/-- The rational value a `JsNum` denotes. -/
def JsNum.val (a : JsNum) : ℚ := (a.num : ℚ) / ((a.den : ℕ) : ℚ)

/-- Exact addition of two JS numbers. -/
def JsNum.add (a b : JsNum) : JsNum :=
  ⟨a.num * ((b.den : ℕ) : Int) + b.num * ((a.den : ℕ) : Int), a.den * b.den⟩

/-- Exact multiplication of a JS number by a natural constant. -/
def JsNum.mulNat (a : JsNum) (k : Nat) : JsNum := ⟨a.num * (k : Int), a.den⟩

/-- The JS comparison `x <= 0` (true floor sign test: `den` is positive, so
the sign of the value is the sign of `num`). -/
def JsNum.le0 (a : JsNum) : Bool := a.num ≤ 0

/-- `Math.floor` (floor toward negative infinity). -/
def JsNum.floorInt (a : JsNum) : Int := Int.fdiv a.num ((a.den : ℕ) : Int)

/-- A literal fraction `n / d`. -/
def frac (n : Int) (d : ℕ+) : JsNum := ⟨n, d⟩

/-- A literal integer JS number. -/
def jsInt (n : Int) : JsNum := ⟨n, 1⟩

/-- `parseFloat(field) || 0`: the parsed numeric value of a duration field,
with an unparsable field (NaN, modelled as `none`) defaulting to zero. -/
def parsedOr0 (v : Option JsNum) : JsNum := v.getD (jsInt 0)

/-- `hours * 60 + mins` as computed in `startAppTimer` / `startSysTimer`. -/
def qTotalMinutes (hoursV minsV : Option JsNum) : JsNum :=
  ((parsedOr0 hoursV).mulNat 60).add (parsedOr0 minsV)

/-- `Math.floor(totalMinutes * 60)`: the countdown length in seconds that an
accepted arm call stores (non-negative whenever the total is positive). -/
def durationSeconds (hoursV minsV : Option JsNum) : Nat :=
  ((qTotalMinutes hoursV minsV).mulNat 60).floorInt.toNat

/-! ### UI-driven state updates -/

/-- The shutdown-after-close checkbox (`setShutdownAfter`). -/
def setShutdownAfterFlag (m : Machine) (b : Bool) : Machine :=
  { m with st.shutdownAfter := b }

/-- The system-action dropdown (`setSysAction`); the UI only ever produces
`"shutdown"`, `"restart"` or `"sleep"`. -/
def setSysActionKey (m : Machine) (a : String) : Machine :=
  { m with st.sysAction := a }

/-- The app-list click handler:
`setSelectedApp(selectedApp?.pid === app.pid ? null : app)`. -/
def toggleSelect (cur : Option ProcessInfo) (app : ProcessInfo) : Option ProcessInfo :=
  match cur with
  | some s => if s.pid = app.pid then none else some app
  | none => some app

/-- Clicking an app row toggles the selection by pid. -/
def clickApp (m : Machine) (app : ProcessInfo) : Machine :=
  { m with st.selectedApp := toggleSelect m.st.selectedApp app }

/-- Completion of a `loadApps` poll (startup, `window-changed` notification,
or the 30-second fallback interval): `setApps(result)`. Nothing else in
`loadApps` touches the selection or the timers. -/
def loadAppsComplete (m : Machine) (result : List ProcessInfo) : Machine :=
  { m with st.apps := result }

/-! ### Action executor and tick callbacks -/

/-- `executeAppShutdown` from App.tsx, with its stale-closure captures `sel`
(the arm-render `selectedApp`) and `sa` (the arm-render `shutdownAfter`) made
explicit, and the backend outcome of `kill_process` supplied by `env`. A
rejected `await invoke("kill_process")` aborts the rest of the async body, so
on `failed` neither the status update nor the chained shutdown nor the
refresh poll happens. -/
def executeAppShutdown (env : Nat → KillOutcome) (sel : Option ProcessInfo) (sa : Bool)
    (m : Machine) : Machine :=
  match sel with
  | none => m
  | some app =>
    let m1 : Machine := { m with calls := m.calls ++ [Call.killProcess app.pid] }
    match env app.pid with
    | .failed => m1
    | _ =>
      let m2 : Machine := { m1 with st.appStatus := tClosed m1.st.lang }
      let m3 : Machine :=
        if sa then { m2 with calls := m2.calls ++ [Call.systemShutdown] } else m2
      let m4 : Machine := { m3 with calls := m3.calls ++ [Call.getRunningApps] }
      { m4 with st.selectedApp := none }

/-- `executeSysAction` from App.tsx with its captured `sysAction` string: the
action key is string-compared at fire time; an unknown key invokes nothing. -/
def executeSysAction (act : String) (m : Machine) : Machine :=
  if act = "shutdown" then { m with calls := m.calls ++ [Call.systemShutdown] }
  else if act = "restart" then { m with calls := m.calls ++ [Call.systemRestart] }
  else if act = "sleep" then { m with calls := m.calls ++ [Call.systemSleep] }
  else m

/-- `clearInterval(h)`: removes the interval with id `h` from the live table;
a `none` handle (JS `null`) is a no-op, as is clearing an already-cleared id. -/
def clearIntervalId (oid : Option Nat) (m : Machine) : Machine :=
  match oid with
  | none => m
  | some i => { m with intervals := m.intervals.filter (fun iv => iv.1 != i) }

/-- One run of a tick callback. App slot:
`setAppTimer(prev => prev <= 1 ? (clearInterval(appIntervalRef.current!);
executeAppShutdown(); 0) : prev - 1)`; note that it clears whatever interval
the ref currently points to, not necessarily its own. Sys slot analogous. -/
def runTickCb (env : Nat → KillOutcome) (c : TickClosure) (m : Machine) : Machine :=
  match c with
  | .app sel sa =>
    if m.st.appTimer ≤ 1 then
      let m1 := clearIntervalId m.st.appIntervalRef m
      let m2 := executeAppShutdown env sel sa m1
      { m2 with st.appTimer := 0 }
    else
      { m with st.appTimer := m.st.appTimer - 1 }
  | .sys act =>
    if m.st.sysTimer ≤ 1 then
      let m1 := clearIntervalId m.st.sysIntervalRef m
      let m2 := executeSysAction act m1
      { m2 with st.sysTimer := 0 }
    else
      { m with st.sysTimer := m.st.sysTimer - 1 }

/-- Look up a live interval's closure by id. -/
def lookupInterval (id : Nat) : List (Nat × TickClosure) → Option TickClosure
  | [] => none
  | iv :: rest => if iv.1 = id then some iv.2 else lookupInterval id rest

/-- Run the callbacks of the given interval ids in order, skipping an id
whose interval has been cleared by an earlier callback of the same second. -/
def runCallbacks (env : Nat → KillOutcome) : List Nat → Machine → Machine
  | [], m => m
  | id :: rest, m =>
    match lookupInterval id m.intervals with
    | none => runCallbacks env rest m
    | some c => runCallbacks env rest (runTickCb env c m)

/-- One wall-clock second: every interval live at the start of the second has
its callback run once, in creation order. -/
def stepSecond (env : Nat → KillOutcome) (m : Machine) : Machine :=
  runCallbacks env (m.intervals.map Prod.fst) m

/-- `n` consecutive seconds of tick delivery. -/
def runTicks (env : Nat → KillOutcome) : Nat → Machine → Machine
  | 0, m => m
  | n + 1, m => runTicks env n (stepSecond env m)

/-! ### Arming and cancelling -/

/-- `startAppTimer` from App.tsx: rejected (state unchanged) when nothing is
selected or when `hours * 60 + mins <= 0`; otherwise stores the floored
second count, clears the status, and registers a fresh interval whose
callback captured the current `selectedApp` and `shutdownAfter`. It does NOT
clear a previously registered interval. -/
def startAppTimer (m : Machine) (hoursV minsV : Option JsNum) : Machine :=
  match m.st.selectedApp with
  | none => m
  | some sel =>
    if (qTotalMinutes hoursV minsV).le0 then m
    else
      { m with
        st.appTimer := durationSeconds hoursV minsV
        st.appStatus := ""
        st.appIntervalRef := some m.nextId
        intervals := m.intervals ++ [(m.nextId, TickClosure.app (some sel) m.st.shutdownAfter)]
        nextId := m.nextId + 1 }

/-- `startSysTimer` from App.tsx: same shape, no selection requirement, and
the callback captured the current `sysAction` key. -/
def startSysTimer (m : Machine) (hoursV minsV : Option JsNum) : Machine :=
  if (qTotalMinutes hoursV minsV).le0 then m
  else
    { m with
      st.sysTimer := durationSeconds hoursV minsV
      st.sysStatus := ""
      st.sysIntervalRef := some m.nextId
      intervals := m.intervals ++ [(m.nextId, TickClosure.sys m.st.sysAction)]
      nextId := m.nextId + 1 }

/-- `cancelAppTimer`: clears the interval the ref currently points to (the
ref itself is not reset), zeroes the counter and records the cancelled
status. -/
def cancelAppTimer (m : Machine) : Machine :=
  let m1 := clearIntervalId m.st.appIntervalRef m
  { m1 with st.appTimer := 0, st.appStatus := tCancelled m1.st.lang }

/-- `cancelSysTimer`: sys-slot analogue of `cancelAppTimer`. -/
def cancelSysTimer (m : Machine) : Machine :=
  let m1 := clearIntervalId m.st.sysIntervalRef m
  { m1 with st.sysTimer := 0, st.sysStatus := tCancelled m1.st.lang }

/-! ### Display-name resolver -/

/-- The fixed browser lookup table, in the insertion order that
`Object.entries` iterates. -/
def browserTable : List (String × String) :=
  [("chrome", "Google Chrome"), ("msedge", "Microsoft Edge"),
   ("firefox", "Firefox"), ("opera", "Opera"), ("brave", "Brave")]

/-- The fixed separator list, in iteration order. -/
def separatorList : List String := [" - ", " — ", " | ", " · "]

/-- `getAppDisplayName` from App.tsx, translated clause by clause: empty
title returns `name.replace('.exe','').replace('.EXE','')`; otherwise the
first matching browser substring of the lower-cased name wins; otherwise the
first separator (in list order) contained in the title yields the trimmed
part before its first occurrence; otherwise the title verbatim. -/
def getAppDisplayName (app : ProcessInfo) : String :=
  let title := app.title
  let processName := jsToLower app.name
  if title = "" then
    removeFirstSub (removeFirstSub app.name ".exe") ".EXE"
  else
    match browserTable.findSome?
        (fun e => if jsIncludes processName e.1 then some e.2 else none) with
    | some friendly => friendly
    | none =>
      match separatorList.findSome?
          (fun sep => if jsIncludes title sep then some (jsTrim (jsBeforeFirst title sep)) else none) with
      | some firstPart => firstPart
      | none => title

/-- The display-name policy written from the spec's words (section 4.2), with
the one amendment claim C8's counterexample forces: step 1 removes the first
occurrence of `.exe` and then the first occurrence of `.EXE` (as the code
does) instead of stripping a trailing extension case-insensitively. Steps 2-4
follow the spec's ordered policy directly. -/
def displayNameSpec (app : ProcessInfo) : String :=
  if app.title = "" then
    removeFirstSub (removeFirstSub app.name ".exe") ".EXE"
  else if jsIncludes (jsToLower app.name) "chrome" then "Google Chrome"
  else if jsIncludes (jsToLower app.name) "msedge" then "Microsoft Edge"
  else if jsIncludes (jsToLower app.name) "firefox" then "Firefox"
  else if jsIncludes (jsToLower app.name) "opera" then "Opera"
  else if jsIncludes (jsToLower app.name) "brave" then "Brave"
  else if jsIncludes app.title " - " then jsTrim (jsBeforeFirst app.title " - ")
  else if jsIncludes app.title " — " then jsTrim (jsBeforeFirst app.title " — ")
  else if jsIncludes app.title " | " then jsTrim (jsBeforeFirst app.title " | ")
  else if jsIncludes app.title " · " then jsTrim (jsBeforeFirst app.title " · ")
  else app.title

/-! ### Canonical machine shapes reached along the claims' traces -/

/-- The machine shape reached by arming the app slot from a one-interval-free
machine: base component state `b`, captured closure data `cSel`/`sa`,
`n` seconds remaining, prior call log `cs`. -/
def armedAppM (b : AppState) (cSel : Option ProcessInfo) (sa : Bool) (n : Nat)
    (cs : List Call) : Machine :=
  { st := { b with appTimer := n, appStatus := "", appIntervalRef := some 1 },
    intervals := [(1, TickClosure.app cSel sa)], nextId := 2, calls := cs }

/-- Sys-slot analogue of `armedAppM`. -/
def armedSysM (b : AppState) (act : String) (n : Nat) (cs : List Call) : Machine :=
  { st := { b with sysTimer := n, sysStatus := "", sysIntervalRef := some 1 },
    intervals := [(1, TickClosure.sys act)], nextId := 2, calls := cs }

/-- The machine produced by the app slot's final tick out of `armedAppM b
(some p) sa 1 cs`, split on the backend outcome for `p.pid`. -/
def appFireResult (env : Nat → KillOutcome) (b : AppState) (p : ProcessInfo) (sa : Bool)
    (cs : List Call) : Machine :=
  match env p.pid with
  | .failed =>
    { st := { b with appTimer := 0, appStatus := "", appIntervalRef := some 1 },
      intervals := [], nextId := 2, calls := cs ++ [Call.killProcess p.pid] }
  | _ =>
    { st := { b with selectedApp := none, appTimer := 0, appStatus := tClosed b.lang,
                     appIntervalRef := some 1 },
      intervals := [], nextId := 2,
      calls := ((cs ++ [Call.killProcess p.pid])
                ++ (if sa then [Call.systemShutdown] else [])) ++ [Call.getRunningApps] }

/-- The calls `executeSysAction` appends for a given action key. -/
def sysFireCalls (act : String) : List Call :=
  if act = "shutdown" then [Call.systemShutdown]
  else if act = "restart" then [Call.systemRestart]
  else if act = "sleep" then [Call.systemSleep]
  else []

/-- The machine produced by the sys slot's final tick out of
`armedSysM b act 1 cs`. -/
def sysFireResult (b : AppState) (act : String) (cs : List Call) : Machine :=
  { st := { b with sysTimer := 0, sysStatus := "", sysIntervalRef := some 1 },
    intervals := [], nextId := 2, calls := cs ++ sysFireCalls act }

/-- The machine shape after cancelling out of `armedAppM`. -/
def cancelledAppM (b : AppState) (cs : List Call) : Machine :=
  { st := { b with appTimer := 0, appStatus := tCancelled b.lang, appIntervalRef := some 1 },
    intervals := [], nextId := 2, calls := cs }

/-- The machine shape after cancelling out of `armedSysM`. -/
def cancelledSysM (b : AppState) (cs : List Call) : Machine :=
  { st := { b with sysTimer := 0, sysStatus := tCancelled b.lang, sysIntervalRef := some 1 },
    intervals := [], nextId := 2, calls := cs }

/-! ### Concrete fixtures for witnesses and counterexamples -/

/-- A concrete backend in which every terminate call succeeds. -/
def envOk : Nat → KillOutcome := fun _ => KillOutcome.success

/-- A concrete backend in which every terminate call fails (promise rejects). -/
def envBad : Nat → KillOutcome := fun _ => KillOutcome.failed

/-- A concrete backend in which the target is already gone. -/
def envGone : Nat → KillOutcome := fun _ => KillOutcome.alreadyGone

/-- A concrete running app used by witnesses. -/
def sampleApp : ProcessInfo := { pid := 7, name := "spotify.exe", title := "Spotify", icon := none }

/-- A second concrete running app with a different pid. -/
def otherApp : ProcessInfo := { pid := 9, name := "mpv.exe", title := "video.mkv - mpv", icon := none }

/-- Concrete trace: arm the sys slot (default action, 0.05 min = 3 s) and
deliver the three ticks. -/
def c1sysRun : Machine :=
  runTicks envOk 3 (startSysTimer init (some (jsInt 0)) (some (frac 1 20)))

/-- Concrete trace: poll, select, arm the app slot for 0.1 min = 6 s, then
arm it AGAIN for 0.05 min = 3 s without cancelling in between. -/
def c6armTwice : Machine :=
  startAppTimer
    (startAppTimer (clickApp (loadAppsComplete init [sampleApp]) sampleApp)
      (some (jsInt 0)) (some (frac 1 10)))
    (some (jsInt 0)) (some (frac 1 20))

/-- Concrete trace: poll `[sampleApp]`, select it, then a later poll returns
a list in which its pid no longer occurs. -/
def c7polled : Machine :=
  loadAppsComplete (clickApp (loadAppsComplete init [sampleApp]) sampleApp) [otherApp]

/-- Concrete trace: poll, select `sampleApp`, arm the app slot for 3 s, then
click `sampleApp` again, deselecting it while the countdown runs. -/
def c10deselected : Machine :=
  clickApp
    (startAppTimer (clickApp (loadAppsComplete init [sampleApp]) sampleApp)
      (some (jsInt 0)) (some (frac 1 20)))
    sampleApp

/-! ## Theorems

First the semantic lemmas tying `JsNum` to the rationals it denotes, then
generic lemmas about the machine's tick delivery, then one theorem (plus
witness or counterexample) per claim. -/

/-- `le0` decides exactly "the denoted rational is ≤ 0". -/
theorem JsNum.le0_iff_val (a : JsNum) : a.le0 = true ↔ a.val ≤ 0 := by
  have hd : (0 : ℚ) < ((a.den : ℕ) : ℚ) := by exact_mod_cast a.den.pos
  unfold JsNum.le0 JsNum.val
  simp only [decide_eq_true_eq]
  constructor
  · intro h
    have hn : (a.num : ℚ) ≤ 0 := by exact_mod_cast h
    exact div_nonpos_iff.mpr (Or.inr ⟨hn, hd.le⟩)
  · intro h
    by_contra hn
    push_neg at hn
    have hq : (0 : ℚ) < (a.num : ℚ) := by exact_mod_cast hn
    have := div_pos hq hd
    linarith

/-- `floorInt` computes the floor of the denoted rational. -/
theorem JsNum.floorInt_eq_floor_val (a : JsNum) : a.floorInt = ⌊a.val⌋ := by
  unfold JsNum.floorInt JsNum.val
  rw [Rat.floor_intCast_div_natCast]
  exact Int.fdiv_eq_ediv _ (by positivity)

/-- A machine without live intervals is unchanged by a second of time. -/
theorem stepSecond_no_intervals (env : Nat → KillOutcome) (m : Machine)
    (h : m.intervals = []) : stepSecond env m = m := by
  unfold stepSecond
  rw [h]
  rfl

/-- A machine without live intervals is unchanged by any amount of time. -/
theorem runTicks_no_intervals (env : Nat → KillOutcome) (k : Nat) (m : Machine)
    (h : m.intervals = []) : runTicks env k m = m := by
  induction k generalizing m with
  | zero => rfl
  | succ n ih =>
    unfold runTicks
    rw [stepSecond_no_intervals env m h, ih m h]

/-- Tick delivery splits over addition. -/
theorem runTicks_add (env : Nat → KillOutcome) (a b : Nat) (m : Machine) :
    runTicks env (a + b) m = runTicks env b (runTicks env a m) := by
  induction a generalizing m with
  | zero => rw [Nat.zero_add]; rfl
  | succ n ih =>
    have h1 : n + 1 + b = (n + b) + 1 := by omega
    rw [h1]
    show runTicks env (n + b) (stepSecond env m) = runTicks env b (runTicks env (n + 1) m)
    rw [ih (stepSecond env m)]
    rfl

/-- Arming the app slot from a machine with a selection, no live intervals
and fresh id 1 produces the canonical armed shape. -/
theorem startAppTimer_arm (m : Machine) (p : ProcessInfo) (hv mv : Option JsNum)
    (hsel : m.st.selectedApp = some p) (hiv : m.intervals = []) (hid : m.nextId = 1)
    (hpos : (qTotalMinutes hv mv).le0 = false) :
    startAppTimer m hv mv
      = armedAppM m.st (some p) m.st.shutdownAfter (durationSeconds hv mv) m.calls := by
  unfold startAppTimer
  rw [hsel, hpos]
  simp [armedAppM, hiv, hid]

/-- Arming the sys slot from a machine with no live intervals and fresh id 1
produces the canonical armed shape. -/
theorem startSysTimer_arm (m : Machine) (hv mv : Option JsNum)
    (hiv : m.intervals = []) (hid : m.nextId = 1)
    (hpos : (qTotalMinutes hv mv).le0 = false) :
    startSysTimer m hv mv
      = armedSysM m.st m.st.sysAction (durationSeconds hv mv) m.calls := by
  unfold startSysTimer
  rw [hpos]
  simp [armedSysM, hiv, hid]

/-- While more than one second remains, a second of time just decrements the
armed app slot's counter. -/
theorem stepSecond_armedApp (env : Nat → KillOutcome) (b : AppState) (c : Option ProcessInfo)
    (sa : Bool) (n : Nat) (cs : List Call) (hn : 1 < n) :
    stepSecond env (armedAppM b c sa n cs) = armedAppM b c sa (n - 1) cs := by
  unfold stepSecond armedAppM runCallbacks lookupInterval runTickCb
  simp [Nat.not_le.mpr hn, runCallbacks]

/-- Countdown: `j` seconds of an armed app slot with `j < n` leave it armed
with `n - j` seconds remaining. -/
theorem runTicks_armedApp (env : Nat → KillOutcome) (b : AppState) (c : Option ProcessInfo)
    (sa : Bool) (n : Nat) (cs : List Call) (j : Nat) (hj : j < n) :
    runTicks env j (armedAppM b c sa n cs) = armedAppM b c sa (n - j) cs := by
  induction j generalizing n with
  | zero => rfl
  | succ i ih =>
    show runTicks env i (stepSecond env (armedAppM b c sa n cs))
      = armedAppM b c sa (n - (i + 1)) cs
    rw [stepSecond_armedApp env b c sa n cs (by omega)]
    rw [ih (n - 1) (by omega)]
    congr 1
    omega

/-- The final tick of the armed app slot: clears the interval, runs
`executeAppShutdown` with the captured closure, zeroes the counter. -/
theorem stepSecond_armedApp_fire (env : Nat → KillOutcome) (b : AppState) (p : ProcessInfo)
    (sa : Bool) (cs : List Call) :
    stepSecond env (armedAppM b (some p) sa 1 cs) = appFireResult env b p sa cs := by
  unfold stepSecond armedAppM runCallbacks lookupInterval runTickCb clearIntervalId
  unfold executeAppShutdown appFireResult
  cases h : env p.pid <;> cases sa <;> simp [h, runCallbacks, tClosed]

/-- While more than one second remains, a second of time just decrements the
armed sys slot's counter. -/
theorem stepSecond_armedSys (env : Nat → KillOutcome) (b : AppState) (act : String)
    (n : Nat) (cs : List Call) (hn : 1 < n) :
    stepSecond env (armedSysM b act n cs) = armedSysM b act (n - 1) cs := by
  unfold stepSecond armedSysM runCallbacks lookupInterval runTickCb
  simp [Nat.not_le.mpr hn, runCallbacks]

/-- Countdown for the armed sys slot. -/
theorem runTicks_armedSys (env : Nat → KillOutcome) (b : AppState) (act : String)
    (n : Nat) (cs : List Call) (j : Nat) (hj : j < n) :
    runTicks env j (armedSysM b act n cs) = armedSysM b act (n - j) cs := by
  induction j generalizing n with
  | zero => rfl
  | succ i ih =>
    show runTicks env i (stepSecond env (armedSysM b act n cs))
      = armedSysM b act (n - (i + 1)) cs
    rw [stepSecond_armedSys env b act n cs (by omega)]
    rw [ih (n - 1) (by omega)]
    congr 1
    omega

/-- The final tick of the armed sys slot. -/
theorem stepSecond_armedSys_fire (env : Nat → KillOutcome) (b : AppState) (act : String)
    (cs : List Call) :
    stepSecond env (armedSysM b act 1 cs) = sysFireResult b act cs := by
  unfold stepSecond armedSysM runCallbacks lookupInterval runTickCb clearIntervalId
  unfold executeSysAction sysFireResult sysFireCalls
  by_cases h1 : act = "shutdown" <;> by_cases h2 : act = "restart" <;>
    by_cases h3 : act = "sleep" <;> simp [h1, h2, h3, runCallbacks]

/-- Cancelling an armed app slot yields the cancelled shape. -/
theorem cancelApp_armed (b : AppState) (c : Option ProcessInfo) (sa : Bool) (n : Nat)
    (cs : List Call) :
    cancelAppTimer (armedAppM b c sa n cs) = cancelledAppM b cs := by
  unfold cancelAppTimer armedAppM cancelledAppM clearIntervalId
  simp

/-- Cancelling an armed sys slot yields the cancelled shape. -/
theorem cancelSys_armed (b : AppState) (act : String) (n : Nat) (cs : List Call) :
    cancelSysTimer (armedSysM b act n cs) = cancelledSysM b cs := by
  unfold cancelSysTimer armedSysM cancelledSysM clearIntervalId
  simp

/-- A click on the app list only toggles the selection of an armed app
machine; the interval, its closure, the counter and the call log survive. -/
theorem clickApp_armedApp (b : AppState) (c : Option ProcessInfo) (sa : Bool) (n : Nat)
    (cs : List Call) (a : ProcessInfo) :
    clickApp (armedAppM b c sa n cs) a
      = armedAppM { b with selectedApp := toggleSelect b.selectedApp a } c sa n cs := by
  unfold clickApp armedAppM
  rfl

/-- Any sequence of app-list clicks leaves an armed app machine armed with the
same closure, counter and call log, changing only the live selection. -/
theorem foldl_clickApp_armedApp (b : AppState) (c : Option ProcessInfo) (sa : Bool) (n : Nat)
    (cs : List Call) (as : List ProcessInfo) :
    as.foldl clickApp (armedAppM b c sa n cs)
      = armedAppM { b with selectedApp := as.foldl toggleSelect b.selectedApp } c sa n cs := by
  induction as generalizing b with
  | nil => rfl
  | cons a rest ih =>
    show rest.foldl clickApp (clickApp (armedAppM b c sa n cs) a)
      = armedAppM { b with selectedApp := (a :: rest).foldl toggleSelect b.selectedApp } c sa n cs
    rw [clickApp_armedApp]
    rw [ih { b with selectedApp := toggleSelect b.selectedApp a }]
    simp [List.foldl_cons]

/-- After its final tick the app slot has no live interval left. -/
theorem appFireResult_intervals (env : Nat → KillOutcome) (b : AppState) (p : ProcessInfo)
    (sa : Bool) (cs : List Call) : (appFireResult env b p sa cs).intervals = [] := by
  unfold appFireResult
  cases env p.pid <;> rfl

/-- Complete run of an armed app slot: `n` ticks fire it (for `1 ≤ n`) and
any `k` further seconds change nothing, because the interval is gone. -/
theorem fireRun_app (env : Nat → KillOutcome) (b : AppState) (p : ProcessInfo) (sa : Bool)
    (cs : List Call) (n k : Nat) (hn : 1 ≤ n) :
    runTicks env (n + k) (armedAppM b (some p) sa n cs) = appFireResult env b p sa cs := by
  obtain ⟨m, rfl⟩ : ∃ m, n = m + 1 := ⟨n - 1, by omega⟩
  have h1 : m + 1 + k = m + (k + 1) := by omega
  rw [h1, runTicks_add]
  rw [runTicks_armedApp env b (some p) sa (m + 1) cs m (by omega)]
  have h2 : m + 1 - m = 1 := by omega
  rw [h2]
  show runTicks env k (stepSecond env (armedAppM b (some p) sa 1 cs)) = _
  rw [stepSecond_armedApp_fire]
  exact runTicks_no_intervals env k _ (appFireResult_intervals env b p sa cs)

/-- Complete run of an armed sys slot: `n` ticks fire it (for `1 ≤ n`) and
any `k` further seconds change nothing. -/
theorem fireRun_sys (env : Nat → KillOutcome) (b : AppState) (act : String)
    (cs : List Call) (n k : Nat) (hn : 1 ≤ n) :
    runTicks env (n + k) (armedSysM b act n cs) = sysFireResult b act cs := by
  obtain ⟨m, rfl⟩ : ∃ m, n = m + 1 := ⟨n - 1, by omega⟩
  have h1 : m + 1 + k = m + (k + 1) := by omega
  rw [h1, runTicks_add]
  rw [runTicks_armedSys env b act (m + 1) cs m (by omega)]
  have h2 : m + 1 - m = 1 := by omega
  rw [h2]
  show runTicks env k (stepSecond env (armedSysM b act 1 cs)) = _
  rw [stepSecond_armedSys_fire]
  exact runTicks_no_intervals env k _ rfl

/-- C4: for every pair of entered (hours, minutes) values whose parsed sum
`hours * 60 + minutes` is zero or negative (an unparsable field defaulting to
zero), arming either slot is rejected synchronously: the machine — counter,
status, interval table, interval ref, call log — is left completely
unchanged, so no countdown starts and no tick delivery begins. -/
theorem C4_nonpositive_duration_rejected (m : Machine) (hv mv : Option JsNum)
    (h : (qTotalMinutes hv mv).le0 = true) :
    startAppTimer m hv mv = m ∧ startSysTimer m hv mv = m := by
  constructor
  · unfold startAppTimer
    cases m.st.selectedApp with
    | none => rfl
    | some sel => simp [h]
  · unfold startSysTimer
    simp [h]

/-- Witness for C4: hours unparsable (defaults to 0) and minutes parsed as
-5 give a non-positive sum, and both arms leave the initial machine
unchanged. -/
theorem C4_witness :
    startAppTimer init none (some (jsInt (-5))) = init
      ∧ startSysTimer init none (some (jsInt (-5))) = init :=
  C4_nonpositive_duration_rejected init none (some (jsInt (-5))) (by decide)

/-- C2: in `executeAppShutdown` with the shutdown-after-close toggle captured
as set, a `kill_process` call that rejects for a cause other than AlreadyGone
aborts the sequence — `system_shutdown` is not invoked and the machine gains
only the kill call — while a terminate that resolves (Success or AlreadyGone)
is followed by the chained `system_shutdown` (and the refresh poll). -/
theorem C2_chained_shutdown_gating (env : Nat → KillOutcome) (m : Machine) (app : ProcessInfo) :
    (env app.pid = KillOutcome.failed →
      executeAppShutdown env (some app) true m
        = { m with calls := m.calls ++ [Call.killProcess app.pid] })
    ∧ (env app.pid ≠ KillOutcome.failed →
      (executeAppShutdown env (some app) true m).calls
        = m.calls ++ [Call.killProcess app.pid, Call.systemShutdown, Call.getRunningApps]) := by
  constructor
  · intro h
    unfold executeAppShutdown
    simp [h]
  · intro h
    unfold executeAppShutdown
    cases henv : env app.pid with
    | failed => exact absurd henv h
    | success => simp [henv]
    | alreadyGone => simp [henv]

/-- Witness for C2: a failing backend yields only the kill call; a succeeding
backend and an already-gone backend both chain the shutdown. -/
theorem C2_witness :
    executeAppShutdown envBad (some sampleApp) true init
        = { init with calls := [Call.killProcess 7] }
      ∧ (executeAppShutdown envOk (some sampleApp) true init).calls
          = [Call.killProcess 7, Call.systemShutdown, Call.getRunningApps]
      ∧ (executeAppShutdown envGone (some sampleApp) true init).calls
          = [Call.killProcess 7, Call.systemShutdown, Call.getRunningApps] :=
  ⟨(C2_chained_shutdown_gating envBad init sampleApp).1 rfl,
   (C2_chained_shutdown_gating envOk init sampleApp).2 (by decide),
   (C2_chained_shutdown_gating envGone init sampleApp).2 (by decide)⟩

/-- C7 counterexample: after selecting `sampleApp` (pid 7) a completed poll
returns a list in which pid 7 does not occur, yet the selection is NOT
cleared — it still is `sampleApp`, contradicting the claim that the
selection becomes none after such a poll. -/
theorem C7_counterexample :
    c7polled.st.apps = [otherApp]
      ∧ sampleApp.pid ∉ c7polled.st.apps.map ProcessInfo.pid
      ∧ c7polled.st.selectedApp = some sampleApp
      ∧ c7polled.st.selectedApp ≠ none := by decide

/-- C7 amended: a completed poll replaces the cached list with the fresh
enumeration result but performs no reconciliation at all — the selection is
left exactly as it was, even when its pid does not occur in the new list;
stale selection data is kept until the user changes it or an app-slot fire
clears it. -/
theorem C7_amended_no_reconciliation (m : Machine) (result : List ProcessInfo) :
    (loadAppsComplete m result).st.apps = result
      ∧ (loadAppsComplete m result).st.selectedApp = m.st.selectedApp
      ∧ (loadAppsComplete m result).intervals = m.intervals
      ∧ (loadAppsComplete m result).st.appTimer = m.st.appTimer
      ∧ (loadAppsComplete m result).st.sysTimer = m.st.sysTimer := by
  refine ⟨rfl, rfl, rfl, rfl, rfl⟩

/-- C9 counterexample: the resolver is not non-empty on every input — the
record with raw name `".exe"` and empty title maps to the empty string. -/
theorem C9_counterexample :
    getAppDisplayName { pid := 0, name := ".exe", title := "", icon := none } = "" := by decide

/-- C9 amended: the resolver is a total pure function — every input record
yields a defined output — but the output is not always non-empty (see the
counterexample); it is guaranteed non-empty whenever the title is non-empty
and contains none of the four separator substrings, since then the result is
either a fixed browser name or the title itself. -/
theorem C9_amended_nonempty_when_no_separator (app : ProcessInfo) (ht : app.title ≠ "")
    (hsep : ∀ sep ∈ separatorList, jsIncludes app.title sep = false) :
    getAppDisplayName app ≠ "" := by
  have hs1 : jsIncludes app.title " - " = false := hsep _ (by simp [separatorList])
  have hs2 : jsIncludes app.title " — " = false := hsep _ (by simp [separatorList])
  have hs3 : jsIncludes app.title " | " = false := hsep _ (by simp [separatorList])
  have hs4 : jsIncludes app.title " · " = false := hsep _ (by simp [separatorList])
  unfold getAppDisplayName
  simp only [if_neg ht, browserTable, separatorList,
    List.findSome?_cons, List.findSome?_nil, hs1, hs2, hs3, hs4]
  by_cases h1 : jsIncludes (jsToLower app.name) "chrome" = true
  · simp [h1]
  · rw [Bool.not_eq_true] at h1
    by_cases h2 : jsIncludes (jsToLower app.name) "msedge" = true
    · simp [h1, h2]
    · rw [Bool.not_eq_true] at h2
      by_cases h3 : jsIncludes (jsToLower app.name) "firefox" = true
      · simp [h1, h2, h3]
      · rw [Bool.not_eq_true] at h3
        by_cases h4 : jsIncludes (jsToLower app.name) "opera" = true
        · simp [h1, h2, h3, h4]
        · rw [Bool.not_eq_true] at h4
          by_cases h5 : jsIncludes (jsToLower app.name) "brave" = true
          · simp [h1, h2, h3, h4, h5]
          · rw [Bool.not_eq_true] at h5
            simp [h1, h2, h3, h4, h5, ht]

/-- Witness for C9 amended: a concrete separator-free titled record resolves
to a non-empty name. -/
theorem C9_witness :
    getAppDisplayName { pid := 1, name := "app.exe", title := "Hello", icon := none } ≠ "" :=
  C9_amended_nonempty_when_no_separator
    { pid := 1, name := "app.exe", title := "Hello", icon := none } (by decide) (by decide)

/-- C8 counterexample: for raw name `"App.Exe"` with empty title the claim's
step 1 (strip a trailing executable extension case-insensitively) demands
`"App"`, but the resolver returns `"App.Exe"` unchanged, because the code
only removes the first occurrence of the exact strings `".exe"` and `".EXE"`
and `".Exe"` matches neither. -/
theorem C8_counterexample :
    getAppDisplayName { pid := 1, name := "App.Exe", title := "", icon := none } = "App.Exe"
      ∧ getAppDisplayName { pid := 1, name := "App.Exe", title := "", icon := none } ≠ "App" := by
  decide

/-- C8 amended: the resolver implements the four-step policy in order, with
step 1 amended to what the code does — on an empty title it returns the raw
name with the first occurrence of `".exe"` and then the first occurrence of
`".EXE"` removed (exact case, not necessarily trailing); step 2 the browser
table in order chrome, msedge, firefox, opera, brave on the lower-cased raw
name; step 3 the first separator of `" - "`, `" — "`, `" | "`, `" · "` (in
that order) contained in the title, splitting at its first occurrence and
trimming; step 4 the title verbatim. Stated as: the code's resolver equals
`displayNameSpec`, the policy written from the spec's words (step 1
amended), together with the three reference vectors. -/
theorem C8_display_name_policy :
    (∀ app : ProcessInfo, getAppDisplayName app = displayNameSpec app)
      ∧ getAppDisplayName
          { pid := 1, name := "chrome.exe", title := "My Page - Google Chrome", icon := none }
          = "Google Chrome"
      ∧ getAppDisplayName
          { pid := 2, name := "notes.exe", title := "budget.txt - Notes", icon := none }
          = "budget.txt"
      ∧ getAppDisplayName
          { pid := 3, name := "service.exe", title := "", icon := none }
          = "service" := by
  refine ⟨?_, by decide, by decide, by decide⟩
  intro app
  unfold getAppDisplayName displayNameSpec
  by_cases ht : app.title = ""
  · simp [ht]
  · simp only [if_neg ht, browserTable, separatorList, List.findSome?_cons, List.findSome?_nil]
    by_cases h1 : jsIncludes (jsToLower app.name) "chrome" = true
    · simp [h1]
    · rw [Bool.not_eq_true] at h1
      by_cases h2 : jsIncludes (jsToLower app.name) "msedge" = true
      · simp [h1, h2]
      · rw [Bool.not_eq_true] at h2
        by_cases h3 : jsIncludes (jsToLower app.name) "firefox" = true
        · simp [h1, h2, h3]
        · rw [Bool.not_eq_true] at h3
          by_cases h4 : jsIncludes (jsToLower app.name) "opera" = true
          · simp [h1, h2, h3, h4]
          · rw [Bool.not_eq_true] at h4
            by_cases h5 : jsIncludes (jsToLower app.name) "brave" = true
            · simp [h1, h2, h3, h4, h5]
            · rw [Bool.not_eq_true] at h5
              by_cases g1 : jsIncludes app.title " - " = true
              · simp [h1, h2, h3, h4, h5, g1]
              · rw [Bool.not_eq_true] at g1
                by_cases g2 : jsIncludes app.title " — " = true
                · simp [h1, h2, h3, h4, h5, g1, g2]
                · rw [Bool.not_eq_true] at g2
                  by_cases g3 : jsIncludes app.title " | " = true
                  · simp [h1, h2, h3, h4, h5, g1, g2, g3]
                  · rw [Bool.not_eq_true] at g3
                    by_cases g4 : jsIncludes app.title " · " = true
                    · simp [h1, h2, h3, h4, h5, g1, g2, g3, g4]
                    · rw [Bool.not_eq_true] at g4
                      simp [h1, h2, h3, h4, h5, g1, g2, g3, g4]

/-- C1 counterexample: the system slot armed for 3 seconds and ticked exactly
3 times does return to idle with its action invoked exactly once, but no
fired/closed terminal status is recorded — the status string stays empty
(`executeSysAction` never sets `sysStatus`), contradicting the claim that the
slot ends `Idle` with a fired/closed status. -/
theorem C1_counterexample :
    c1sysRun.st.sysTimer = 0
      ∧ c1sysRun.intervals = []
      ∧ c1sysRun.calls = [Call.systemShutdown]
      ∧ c1sysRun.st.sysStatus = ""
      ∧ c1sysRun.st.sysStatus ≠ tClosed Language.zh
      ∧ c1sysRun.st.sysStatus ≠ tClosed Language.en := by decide

/-- C1 amended: for either slot armed with a duration of `N ≥ 1` seconds and
ANY backend outcome, delivering `N` ticks (and any number of further seconds)
returns the slot to idle — counter 0, interval gone, so no further decrement
and no second invocation. The app slot invokes `kill_process` on the armed
pid exactly once in every case: when the terminate call resolves the log is
exactly that kill plus the chained shutdown (if the toggle was captured set)
plus the refresh poll, and the "closed" status is recorded; when the
terminate call rejects the log is exactly the one kill — chained shutdown and
poll suppressed — and the status string is left empty (no failure status is
recorded either). The system slot logs exactly one power action but records
NO terminal status — its status string stays empty. -/
theorem C1_tick_to_zero_fires_once :
    (∀ (env : Nat → KillOutcome) (p : ProcessInfo) (sa : Bool) (hv mv : Option JsNum) (k : Nat),
      (qTotalMinutes hv mv).le0 = false →
      1 ≤ durationSeconds hv mv →
      (runTicks env (durationSeconds hv mv + k)
          (startAppTimer (clickApp (setShutdownAfterFlag init sa) p) hv mv)).st.appTimer = 0
        ∧ (runTicks env (durationSeconds hv mv + k)
            (startAppTimer (clickApp (setShutdownAfterFlag init sa) p) hv mv)).intervals = []
        ∧ (env p.pid ≠ KillOutcome.failed →
            (runTicks env (durationSeconds hv mv + k)
                (startAppTimer (clickApp (setShutdownAfterFlag init sa) p) hv mv)).calls
                = [Call.killProcess p.pid]
                    ++ (if sa then [Call.systemShutdown] else []) ++ [Call.getRunningApps]
              ∧ (runTicks env (durationSeconds hv mv + k)
                  (startAppTimer (clickApp (setShutdownAfterFlag init sa) p) hv mv)).st.appStatus
                  = tClosed Language.zh)
        ∧ (env p.pid = KillOutcome.failed →
            (runTicks env (durationSeconds hv mv + k)
                (startAppTimer (clickApp (setShutdownAfterFlag init sa) p) hv mv)).calls
                = [Call.killProcess p.pid]
              ∧ (runTicks env (durationSeconds hv mv + k)
                  (startAppTimer (clickApp (setShutdownAfterFlag init sa) p) hv mv)).st.appStatus
                  = ""))
    ∧ (∀ (env : Nat → KillOutcome) (act : String) (hv mv : Option JsNum) (k : Nat),
      (qTotalMinutes hv mv).le0 = false →
      1 ≤ durationSeconds hv mv →
      act = "shutdown" ∨ act = "restart" ∨ act = "sleep" →
      (runTicks env (durationSeconds hv mv + k)
          (startSysTimer (setSysActionKey init act) hv mv)).calls = sysFireCalls act
        ∧ (sysFireCalls act).length = 1
        ∧ (runTicks env (durationSeconds hv mv + k)
            (startSysTimer (setSysActionKey init act) hv mv)).st.sysTimer = 0
        ∧ (runTicks env (durationSeconds hv mv + k)
            (startSysTimer (setSysActionKey init act) hv mv)).st.sysStatus = ""
        ∧ (runTicks env (durationSeconds hv mv + k)
            (startSysTimer (setSysActionKey init act) hv mv)).intervals = []) := by
  constructor
  · intro env p sa hv mv k hq hN
    have harm : startAppTimer (clickApp (setShutdownAfterFlag init sa) p) hv mv
        = armedAppM { initState with selectedApp := some p, shutdownAfter := sa }
            (some p) sa (durationSeconds hv mv) [] := by
      rw [startAppTimer_arm _ p hv mv rfl rfl rfl hq]
      rfl
    rw [harm, fireRun_app env _ p sa [] (durationSeconds hv mv) k hN]
    refine ⟨?_, appFireResult_intervals env _ p sa [], ?_, ?_⟩
    · cases henv2 : env p.pid <;> simp [appFireResult, henv2]
    · intro henv
      cases henv2 : env p.pid with
      | failed => exact absurd henv2 henv
      | success => constructor <;> simp [appFireResult, henv2, initState]
      | alreadyGone => constructor <;> simp [appFireResult, henv2, initState]
    · intro henv
      constructor <;> simp [appFireResult, henv, initState]
  · intro env act hv mv k hq hN hact
    have harm : startSysTimer (setSysActionKey init act) hv mv
        = armedSysM { initState with sysAction := act } act (durationSeconds hv mv) [] := by
      rw [startSysTimer_arm _ hv mv rfl rfl hq]
      rfl
    rw [harm, fireRun_sys env _ act [] (durationSeconds hv mv) k hN]
    refine ⟨by simp [sysFireResult], ?_, rfl, rfl, rfl⟩
    rcases hact with h | h | h <;> simp [sysFireCalls, h]

/-- Witness for the amended C1: a 3-second app arm with the chain toggle set
fires exactly once even with 2 extra seconds delivered; the same arm against
a rejecting backend logs only the single kill and leaves the status empty;
and a 3-second "restart" sys arm logs exactly the restart call. -/
theorem C1_witness :
    (runTicks envOk (durationSeconds (some (jsInt 0)) (some (frac 1 20)) + 2)
        (startAppTimer (clickApp (setShutdownAfterFlag init true) sampleApp)
          (some (jsInt 0)) (some (frac 1 20)))).calls
        = [Call.killProcess sampleApp.pid]
            ++ (if true then [Call.systemShutdown] else []) ++ [Call.getRunningApps]
      ∧ (runTicks envBad (durationSeconds (some (jsInt 0)) (some (frac 1 20)) + 0)
          (startAppTimer (clickApp (setShutdownAfterFlag init true) sampleApp)
            (some (jsInt 0)) (some (frac 1 20)))).calls = [Call.killProcess sampleApp.pid]
      ∧ (runTicks envBad (durationSeconds (some (jsInt 0)) (some (frac 1 20)) + 0)
          (startAppTimer (clickApp (setShutdownAfterFlag init true) sampleApp)
            (some (jsInt 0)) (some (frac 1 20)))).st.appStatus = ""
      ∧ (runTicks envOk (durationSeconds (some (jsInt 0)) (some (frac 1 20)) + 0)
          (startSysTimer (setSysActionKey init "restart")
            (some (jsInt 0)) (some (frac 1 20)))).calls = sysFireCalls "restart" :=
  ⟨((C1_tick_to_zero_fires_once.1 envOk sampleApp true (some (jsInt 0)) (some (frac 1 20)) 2
      (by decide) (by decide)).2.2.1 (by decide)).1,
   ((C1_tick_to_zero_fires_once.1 envBad sampleApp true (some (jsInt 0)) (some (frac 1 20)) 0
      (by decide) (by decide)).2.2.2 rfl).1,
   ((C1_tick_to_zero_fires_once.1 envBad sampleApp true (some (jsInt 0)) (some (frac 1 20)) 0
      (by decide) (by decide)).2.2.2 rfl).2,
   (C1_tick_to_zero_fires_once.2 envOk "restart" (some (jsInt 0)) (some (frac 1 20)) 0
      (by decide) (by decide) (Or.inr (Or.inl rfl))).1⟩

/-- C3: for either slot, cancelling at any point strictly before the Nth tick
prevents the action from ever being invoked — the final machine has an empty
call log, zero remaining seconds, the "cancelled" status, and no live
interval, no matter how many further seconds elapse after the cancel. -/
theorem C3_cancel_prevents_fire :
    (∀ (env : Nat → KillOutcome) (p : ProcessInfo) (sa : Bool) (hv mv : Option JsNum) (j k : Nat),
      (qTotalMinutes hv mv).le0 = false →
      j < durationSeconds hv mv →
      runTicks env k (cancelAppTimer (runTicks env j
          (startAppTimer (clickApp (setShutdownAfterFlag init sa) p) hv mv)))
        = cancelledAppM { initState with selectedApp := some p, shutdownAfter := sa } [])
    ∧ (∀ (env : Nat → KillOutcome) (act : String) (hv mv : Option JsNum) (j k : Nat),
      (qTotalMinutes hv mv).le0 = false →
      j < durationSeconds hv mv →
      runTicks env k (cancelSysTimer (runTicks env j
          (startSysTimer (setSysActionKey init act) hv mv)))
        = cancelledSysM { initState with sysAction := act } []) := by
  constructor
  · intro env p sa hv mv j k hq hj
    have harm : startAppTimer (clickApp (setShutdownAfterFlag init sa) p) hv mv
        = armedAppM { initState with selectedApp := some p, shutdownAfter := sa }
            (some p) sa (durationSeconds hv mv) [] := by
      rw [startAppTimer_arm _ p hv mv rfl rfl rfl hq]
      rfl
    rw [harm, runTicks_armedApp env _ (some p) sa (durationSeconds hv mv) [] j hj,
      cancelApp_armed]
    exact runTicks_no_intervals env k _ rfl
  · intro env act hv mv j k hq hj
    have harm : startSysTimer (setSysActionKey init act) hv mv
        = armedSysM { initState with sysAction := act } act (durationSeconds hv mv) [] := by
      rw [startSysTimer_arm _ hv mv rfl rfl hq]
      rfl
    rw [harm, runTicks_armedSys env _ act (durationSeconds hv mv) [] j hj,
      cancelSys_armed]
    exact runTicks_no_intervals env k _ rfl

/-- Witness for C3: cancelling the 3-second app arm after 1 tick and the
3-second sys arm after 2 ticks, then delivering several further seconds,
leaves cancelled idle machines with empty call logs. -/
theorem C3_witness :
    runTicks envOk 5 (cancelAppTimer (runTicks envOk 1
        (startAppTimer (clickApp (setShutdownAfterFlag init false) sampleApp)
          (some (jsInt 0)) (some (frac 1 20)))))
      = cancelledAppM { initState with selectedApp := some sampleApp, shutdownAfter := false } []
    ∧ runTicks envOk 4 (cancelSysTimer (runTicks envOk 2
        (startSysTimer (setSysActionKey init "sleep") (some (jsInt 0)) (some (frac 1 20)))))
      = cancelledSysM { initState with sysAction := "sleep" } [] :=
  ⟨C3_cancel_prevents_fire.1 envOk sampleApp false (some (jsInt 0)) (some (frac 1 20)) 1 5
      (by decide) (by decide),
   C3_cancel_prevents_fire.2 envOk "sleep" (some (jsInt 0)) (some (frac 1 20)) 2 4
      (by decide) (by decide)⟩

/-- C5: the pid passed to `kill_process` when the app timer fires is the pid
selected at arm time, for EVERY sequence of app-list clicks made between
arming and firing (selection changed, cleared, replaced — the interval's
callback holds the arm-render closure): the first logged call is the kill of
the armed pid and every kill in the log carries that pid. -/
theorem C5_pid_snapshot_at_arm (env : Nat → KillOutcome) (p : ProcessInfo) (sa : Bool)
    (hv mv : Option JsNum) (clicks : List ProcessInfo)
    (hq : (qTotalMinutes hv mv).le0 = false)
    (hN : 1 ≤ durationSeconds hv mv) :
    (runTicks env (durationSeconds hv mv)
        (clicks.foldl clickApp
          (startAppTimer (clickApp (setShutdownAfterFlag init sa) p) hv mv))).calls.head?
        = some (Call.killProcess p.pid)
    ∧ ∀ q, Call.killProcess q ∈ (runTicks env (durationSeconds hv mv)
        (clicks.foldl clickApp
          (startAppTimer (clickApp (setShutdownAfterFlag init sa) p) hv mv))).calls →
        q = p.pid := by
  have harm : startAppTimer (clickApp (setShutdownAfterFlag init sa) p) hv mv
      = armedAppM { initState with selectedApp := some p, shutdownAfter := sa }
          (some p) sa (durationSeconds hv mv) [] := by
    rw [startAppTimer_arm _ p hv mv rfl rfl rfl hq]
    rfl
  rw [harm, foldl_clickApp_armedApp]
  have hrun := fireRun_app env
    { { initState with selectedApp := some p, shutdownAfter := sa } with
      selectedApp := clicks.foldl toggleSelect
        ({ initState with selectedApp := some p, shutdownAfter := sa }).selectedApp }
    p sa [] (durationSeconds hv mv) 0 hN
  rw [Nat.add_zero] at hrun
  rw [hrun]
  cases henv : env p.pid with
  | failed =>
    refine ⟨by simp [appFireResult, henv], ?_⟩
    intro q hq'
    simp [appFireResult, henv] at hq'
    exact hq'
  | success =>
    refine ⟨by cases sa <;> simp [appFireResult, henv], ?_⟩
    intro q hq'
    cases sa <;> simp [appFireResult, henv] at hq' <;> exact hq'
  | alreadyGone =>
    refine ⟨by cases sa <;> simp [appFireResult, henv], ?_⟩
    intro q hq'
    cases sa <;> simp [appFireResult, henv] at hq' <;> exact hq'

/-- Witness for C5: selecting `otherApp` (pid 9) during the countdown does
not change the fired pid — the kill still targets pid 7 captured at arm
time. -/
theorem C5_witness :
    (runTicks envOk (durationSeconds (some (jsInt 0)) (some (frac 1 20)))
        ([otherApp].foldl clickApp
          (startAppTimer (clickApp (setShutdownAfterFlag init false) sampleApp)
            (some (jsInt 0)) (some (frac 1 20))))).calls.head?
      = some (Call.killProcess sampleApp.pid) :=
  (C5_pid_snapshot_at_arm envOk sampleApp false (some (jsInt 0)) (some (frac 1 20)) [otherApp]
    (by decide) (by decide)).1

/-- C10 counterexample: deselecting the armed app during the countdown (the
live selection IS none when the timer reaches zero) does NOT make the fire a
no-op — `kill_process` is still invoked with the arm-time pid, the refresh
poll runs, and the status becomes the "closed" string rather than staying
empty. -/
theorem C10_counterexample :
    c10deselected.st.selectedApp = none
      ∧ (runTicks envOk 3 c10deselected).calls
          = [Call.killProcess 7, Call.getRunningApps]
      ∧ (runTicks envOk 3 c10deselected).st.appStatus = tClosed Language.zh
      ∧ tClosed Language.zh ≠ "" := by decide

/-- C10 amended: `executeAppShutdown` is a silent no-op (no backend call, no
state change) only when its CAPTURED selection — the arm-render snapshot, not
the live selection — is none; since arming requires a selection, that cannot
arise in the fire path: deselecting during the countdown leaves the live
selection none, yet the fire still invokes `kill_process` with the arm-time
pid. -/
theorem C10_fire_uses_captured_selection :
    (∀ (env : Nat → KillOutcome) (sa : Bool) (m : Machine),
      executeAppShutdown env none sa m = m)
    ∧ (∀ (env : Nat → KillOutcome) (p : ProcessInfo) (sa : Bool) (hv mv : Option JsNum),
      (qTotalMinutes hv mv).le0 = false →
      1 ≤ durationSeconds hv mv →
      (clickApp (startAppTimer (clickApp (setShutdownAfterFlag init sa) p) hv mv) p).st.selectedApp
          = none
        ∧ (runTicks env (durationSeconds hv mv)
            (clickApp (startAppTimer (clickApp (setShutdownAfterFlag init sa) p) hv mv) p)).calls.head?
            = some (Call.killProcess p.pid)) := by
  constructor
  · intro env sa m
    rfl
  · intro env p sa hv mv hq hN
    have harm : startAppTimer (clickApp (setShutdownAfterFlag init sa) p) hv mv
        = armedAppM { initState with selectedApp := some p, shutdownAfter := sa }
            (some p) sa (durationSeconds hv mv) [] := by
      rw [startAppTimer_arm _ p hv mv rfl rfl rfl hq]
      rfl
    constructor
    · rw [harm, clickApp_armedApp]
      simp [armedAppM, toggleSelect]
    · rw [harm, clickApp_armedApp]
      have hrun := fireRun_app env
        { { initState with selectedApp := some p, shutdownAfter := sa } with
          selectedApp := toggleSelect
            ({ initState with selectedApp := some p, shutdownAfter := sa }).selectedApp p }
        p sa [] (durationSeconds hv mv) 0 hN
      rw [Nat.add_zero] at hrun
      rw [hrun]
      cases henv : env p.pid with
      | failed => simp [appFireResult, henv]
      | success => cases sa <;> simp [appFireResult, henv]
      | alreadyGone => cases sa <;> simp [appFireResult, henv]

/-- Witness for the amended C10: the guard no-op on a captured-none selection
at a concrete machine, and the concrete deselect-during-countdown run whose
first call is still the kill of pid 7. -/
theorem C10_witness :
    executeAppShutdown envOk none true init = init
      ∧ (runTicks envOk (durationSeconds (some (jsInt 0)) (some (frac 1 20)))
          (clickApp (startAppTimer (clickApp (setShutdownAfterFlag init false) sampleApp)
            (some (jsInt 0)) (some (frac 1 20))) sampleApp)).calls.head?
          = some (Call.killProcess sampleApp.pid) :=
  ⟨C10_fire_uses_captured_selection.1 envOk true init,
   (C10_fire_uses_captured_selection.2 envOk sampleApp false (some (jsInt 0)) (some (frac 1 20))
      (by decide) (by decide)).2⟩

/-- C6: evaluation at the failing input. Arming the app slot a second time
without cancelling (UI race past the disabled button) does NOT reset cleanly:
the first interval is never cleared (its handle was overwritten), so after
the re-arm TWO tick sources are live, one real second decrements the counter
by 2 (3 → 1, where the claim demands 3 → 2), the action fires TWICE within
three seconds, and a live interval remains behind even afterwards. -/
theorem C6_rearm_leaves_stale_interval :
    c6armTwice.intervals.length = 2
      ∧ c6armTwice.st.appTimer = 3
      ∧ (runTicks envOk 1 c6armTwice).st.appTimer = 1
      ∧ (runTicks envOk 3 c6armTwice).calls
          = [Call.killProcess 7, Call.getRunningApps, Call.killProcess 7, Call.getRunningApps]
      ∧ (runTicks envOk 3 c6armTwice).intervals ≠ [] := by decide

end AutoShutdown
